import Mathlib

/-!
Verification of the issue-extraction pipeline of the KPI repository
(`src/extract.py`, class `AccurateWhatsAppAnalyzer`).

The embedding models:
* the ticket-reference extraction of `parse_whatsapp_file`
  (`re.findall(r'\b\d{7}\b', message)`, line 152 / 200);
* the message-intent classifier `_classify_message_type` (lines 420-458)
  together with `_contains_keywords` (460-467);
* the category lookup `_categorize_issue` (614-631);
* the stateful segmentation engine `group_into_issues` (469-586);
* the rate computations of `calculate_kpis` (633-736).

Timestamps and durations (`datetime` / `timedelta`) are modelled as integers
counting seconds; `timedelta(hours=2)` is 7200 seconds.  Python `None` becomes
`Option.none`.  Strings are Lean `String`s; the `re` character classes
`\d` / `\w` are modelled by codepoint-range tables taken from the Unicode
character database (the classes CPython's `re` engine uses on `str`), while
the `str.lower()` used in keyword matching is modelled on its ASCII
fragment.
-/

/-- Sender role, the value of `Message.sender_type` in `extract.py`
(`'customer'`, `'support'` or `'unknown'`, assigned in `classify_messages`). -/
inductive SenderType where
  | customer
  | support
  | unknown
deriving DecidableEq, Repr

/-- Message intent, the value of `Message.message_type` produced by
`_classify_message_type`. -/
inductive MsgType where
  | issue_report
  | follow_up
  | general
  | resolution
  | acknowledgment
  | request_info
  | response
  | other
deriving DecidableEq, Repr

/-- Issue status; `open_` models the Python string `'open'`, the other three
are the terminal strings `'pending'`, `'resolved'`, `'no_response'`. -/
inductive Status where
  | open_
  | pending
  | resolved
  | no_response
deriving DecidableEq, Repr

/-- The `Message` dataclass of `extract.py` (lines 11-20), timestamps in
seconds. -/
structure Message where
  timestamp : Int
  sender : String
  sender_type : SenderType
  content : String
  message_type : MsgType
  language : String
  has_ticket_id : Bool
  ticket_ids : List String
deriving DecidableEq, Repr

/-- The `Issue` dataclass of `extract.py` (lines 22-37).  `issue_id` keeps the
sequential counter (the Python string is `'ISSUE_%04d' % issue_id`);
`first_response_time` / `resolution_time` are durations in seconds;
`support_participants` models the Python `set` as a duplicate-free list. -/
structure Issue where
  issue_id : Nat
  ticket_ids : List String
  reporter : String
  initial_message : String
  start_time : Int
  end_time : Option Int
  status : Status
  messages : List Message
  first_response_time : Option Int
  resolution_time : Option Int
  total_responses : Nat
  category : String
  language : String
  support_participants : List String
deriving DecidableEq, Repr

/-- Python substring test `needle in hay` restricted to the first position:
`startsWithChars n h` holds iff `n` is an initial segment of `h`. -/
def startsWithChars : List Char → List Char → Bool
  | [], _ => true
  | _ :: _, [] => false
  | a :: as, b :: bs => a == b && startsWithChars as bs

/-- Python substring containment `needle in hay` on character lists. -/
def hasSub (needle : List Char) : List Char → Bool
  | [] => startsWithChars needle []
  | c :: cs => startsWithChars needle (c :: cs) || hasSub needle cs

/-- Python `needle in hay` on strings. -/
def strContains (hay needle : String) : Bool :=
  hasSub needle.toList hay.toList

/-- Python `str.lower()` (ASCII fragment), written directly on the character
list so that it evaluates by kernel reduction. -/
def strLower (s : String) : String :=
  String.mk (s.data.map Char.toLower)

/-- The `issue_indicators` list of `_classify_message_type` (lines 426-430). -/
def kwIssueIndicators : List String :=
  ["طفت", "طافي", "قطع", "مشكلة", "بورت", "down", "error",
   "ماجابه", "مجابه", "ماجابها", "مجابها", "طافيه",
   "بورتات طفت", "بورتات طافي", "قطوعات", "لطش"]

/-- The `resolution_indicators` list of `_classify_message_type`
(lines 443-447). -/
def kwResolutionIndicators : List String :=
  ["تمام", "done", "recheck", "ok", "solved", "fixed",
   "عاشت ايدك", "وايدك", "تدلل", "ممنون", "شكرا",
   "thank you", "welcome", "كملن", "انتهى"]

/-- The `follow_up` keyword table of `_init_patterns` (lines 143-151),
Arabic list followed by the English list. -/
def kwFollowUp : List String :=
  ["شلونك", "وين وصل", "شنو صار", "كملن", "لسا", "بعد",
   "شوفت", "انت ذهب", "هسه",
   "any update", "status", "what about", "still", "yet"]

/-- The `acknowledgment` keyword table of `_init_patterns` (lines 111-121). -/
def kwAcknowledgment : List String :=
  ["تمام", "باشر", "اوكي", "حاضر", "فهمت", "وصل",
   "هسه اجيك", "هسه نجيك", "شوفه", "راح اشوف", "دلل",
   "هسه اشوفها", "هسه اجيكه",
   "ok", "okay", "got it", "noted", "checking", "will check",
   "looking into"]

/-- The `request_action` keyword table of `_init_patterns` (lines 134-142). -/
def kwRequestAction : List String :=
  ["ممكن", "بلازحمه", "اذا ممكن", "تقدر", "لو سمحت",
   "تجيك", "تشوف", "تعدل", "تمسحها", "تلغوها",
   "can you", "could you", "please", "would you", "kindly"]

/-- `_contains_keywords` (lines 460-467): any keyword of the table occurs in
`content` (both language lists are scanned; the match is on the string as
passed, without further lowercasing). -/
def containsKeywords (content : String) (table : List String) : Bool :=
  table.any (fun kw => strContains content kw)

/-- `_classify_message_type` (lines 420-458): role-gated, first-match-wins
intent classification.  `content` is matched lowercased against the indicator
lists and as passed against the keyword tables, exactly as in the source. -/
def classify_message_type (sender_type : SenderType) (content : String)
    (has_ticket : Bool) : MsgType :=
  let content_lower := strLower content
  match sender_type with
  | SenderType.customer =>
    if kwIssueIndicators.any (fun kw => strContains content_lower kw) then
      MsgType.issue_report
    else if has_ticket then
      MsgType.issue_report
    else if containsKeywords content kwFollowUp then
      MsgType.follow_up
    else
      MsgType.general
  | SenderType.support =>
    if kwResolutionIndicators.any (fun kw => strContains content_lower kw) then
      MsgType.resolution
    else if containsKeywords content kwAcknowledgment then
      MsgType.acknowledgment
    else if containsKeywords content kwRequestAction then
      MsgType.request_info
    else
      MsgType.response
  | SenderType.unknown => MsgType.other

/-- The ordered `categories` dict of `_categorize_issue` (lines 618-625). -/
def kwCategories : List (String × List String) :=
  [("zabbix_monitoring", ["zabbix", "زابكس", "ماجابه الزابكس", "مجابها الزابكس"]),
   ("port_down", ["port", "بورت", "بورتات", "ports down", "link down"]),
   ("temperature", ["temperature", "حرارة", "تمبرجر", "trigger"]),
   ("outage", ["قطع", "قطوعات", "down", "offline", "طفت", "منقطع"]),
   ("configuration", ["edit", "change", "تعديل", "عدل", "oid", "class"]),
   ("alarm", ["alarm", "الرم", "مشكلة", "error"])]

/-- `_categorize_issue` (lines 614-631): first category whose keyword list has
a hit in the lowercased content, else `"other"`. -/
def categorize_issue (content : String) : String :=
  let content_lower := strLower content
  match kwCategories.find? (fun p => p.2.any (fun kw => strContains content_lower kw)) with
  | some p => p.1
  | none => "other"

/-- `max_gap = timedelta(hours=2)` (line 477), in seconds. -/
def maxGap : Int := 7200

/-- Timestamp of `messages[-1]`.  Every Issue built by the engine has a
non-empty message list (created with one message, only ever appended to), so
the default `0` for the empty list is never consulted on reachable states. -/
def lastTs (ms : List Message) : Int :=
  match ms.getLast? with
  | some m => m.timestamp
  | none => 0

/-- Python truthiness of an `Optional[timedelta]`: `None` and the zero
duration are falsy, everything else truthy. -/
def tdTruthy : Option Int → Bool
  | none => false
  | some d => d != 0

/-- Apply `f` to the last element of a list (the `current_issue`, which is
always the most recently appended Issue), leaving the rest unchanged. -/
def updateLast (f : Issue → Issue) : List Issue → List Issue
  | [] => []
  | [x] => [f x]
  | x :: y :: t => x :: updateLast f (y :: t)

/-- Closing of the open current Issue in `group_into_issues` (lines 485-487
and 554-556): only an Issue with status `open` is moved to `pending` with
`end_time` the timestamp of its last message. -/
def closeAsPending (iss : Issue) : Issue :=
  if iss.status = Status.open_ then
    { iss with status := Status.pending, end_time := some (lastTs iss.messages) }
  else iss

/-- Issue creation in `group_into_issues` (lines 490-506 and 559-575). -/
def mkIssue (counter : Nat) (msg : Message) : Issue :=
  { issue_id := counter,
    ticket_ids := msg.ticket_ids,
    reporter := msg.sender,
    initial_message := msg.content,
    start_time := msg.timestamp,
    end_time := none,
    status := Status.open_,
    messages := [msg],
    first_response_time := none,
    resolution_time := none,
    total_responses := 0,
    category := categorize_issue msg.content,
    language := msg.language,
    support_participants := [] }

/-- Intents counted as support responses, the list
`['acknowledgment', 'response', 'request_info']` of lines 531 and 536. -/
def respIntent (t : MsgType) : Bool :=
  t = MsgType.acknowledgment || t = MsgType.response || t = MsgType.request_info

/-- The `belongs_to_issue` test of `group_into_issues` (lines 513-520): small
time gap, shared ticket reference, or customer follow-up/general message. -/
def belongs_to_issue (cur : Issue) (msg : Message) : Bool :=
  (msg.timestamp - lastTs cur.messages ≤ maxGap)
    || cur.ticket_ids.any (fun tid => msg.ticket_ids.contains tid)
    || (msg.sender_type = SenderType.customer
          && (msg.message_type = MsgType.follow_up || msg.message_type = MsgType.general))

/-- The body of the `belongs_to_issue` branch (lines 522-549): append the
message; for support messages update participants, first-response time (only
when still unset), the response counter and, on a `resolution` intent, the
resolution fields (unconditionally); finally union in new ticket ids.  The
Python statements mutate disjoint fields, each reading the pre-update value,
so they are rendered as one simultaneous record update. -/
def appendMsg (msg : Message) (iss : Issue) : Issue :=
  { iss with
    messages := iss.messages ++ [msg],
    support_participants :=
      if msg.sender_type = SenderType.support
          && !(iss.support_participants.contains msg.sender) then
        iss.support_participants ++ [msg.sender]
      else iss.support_participants,
    first_response_time :=
      if msg.sender_type = SenderType.support && iss.first_response_time = none
          && respIntent msg.message_type then
        some (msg.timestamp - iss.start_time)
      else iss.first_response_time,
    total_responses :=
      if msg.sender_type = SenderType.support && respIntent msg.message_type then
        iss.total_responses + 1
      else iss.total_responses,
    status :=
      if msg.sender_type = SenderType.support
          && msg.message_type = MsgType.resolution then
        Status.resolved
      else iss.status,
    end_time :=
      if msg.sender_type = SenderType.support
          && msg.message_type = MsgType.resolution then
        some msg.timestamp
      else iss.end_time,
    resolution_time :=
      if msg.sender_type = SenderType.support
          && msg.message_type = MsgType.resolution then
        some (msg.timestamp - iss.start_time)
      else iss.resolution_time,
    ticket_ids :=
      msg.ticket_ids.foldl
        (fun acc tid => if acc.contains tid then acc else acc ++ [tid])
        iss.ticket_ids }

/-- One iteration of the message loop of `group_into_issues` (lines 479-577).
The state is the list of Issues in creation order; `current_issue` is its last
element (every assignment to `current_issue` in the source is immediately
followed by appending it to `self.issues`, and `current_issue` is never reset
to `None`), and `issue_counter` equals the list length plus one. -/
def step (issues : List Issue) (msg : Message) : List Issue :=
  if msg.message_type = MsgType.issue_report
      && msg.sender_type = SenderType.customer then
    updateLast closeAsPending issues ++ [mkIssue (issues.length + 1) msg]
  else
    match issues.getLast? with
    | none => issues
    | some cur =>
      if belongs_to_issue cur msg then
        updateLast (appendMsg msg) issues
      else if msg.sender_type = SenderType.customer
          && (msg.message_type = MsgType.issue_report
                || msg.message_type = MsgType.general) then
        updateLast closeAsPending issues ++ [mkIssue (issues.length + 1) msg]
      else issues

/-- End-of-stream finalization of one Issue (lines 580-586): an Issue still
`open` gets `end_time` from its last message and becomes `pending` when
`issue.first_response_time` is truthy (Python truthiness: a zero timedelta is
falsy), else `no_response`. -/
def finalizeIssue (iss : Issue) : Issue :=
  if iss.status = Status.open_ then
    { iss with
      end_time := some (lastTs iss.messages),
      status := if tdTruthy iss.first_response_time then Status.pending
                else Status.no_response }
  else iss

/-- The finalization loop over `self.issues` (lines 579-586). -/
def finalize (issues : List Issue) : List Issue :=
  issues.map finalizeIssue

/-- `group_into_issues` (lines 469-586) as a function from the classified,
time-ordered message list to the finished Issue list. -/
def group_into_issues (msgs : List Message) : List Issue :=
  finalize (msgs.foldl step [])

/-- The rate-relevant part of the `calculate_kpis` result dict
(lines 714-720). -/
structure Kpis where
  total_issues : Nat
  resolved_issues : Nat
  pending_issues : Nat
  no_response_issues : Nat
  resolution_rate : ℚ
  response_rate : ℚ
deriving DecidableEq, Repr

/-- `calculate_kpis` (lines 633-736), restricted to the status counts and the
two rates (the latency averages, breakdowns and timing analysis of the
remaining dict entries are not needed by any claim).  On an empty Issue list
the source returns `{"error": "No issues found"}` (lines 639-640) before any
rate is computed; this early return is modelled as `none`.  The response count
is the length of `[i.first_response_time for i in self.issues if
i.first_response_time]` (line 648), which uses Python truthiness. -/
def calculate_kpis (issues : List Issue) : Option Kpis :=
  if issues = [] then none
  else
    let total := issues.length
    let resolved := (issues.filter (fun i => i.status = Status.resolved)).length
    let pending := (issues.filter (fun i => i.status = Status.pending)).length
    let no_resp := (issues.filter (fun i => i.status = Status.no_response)).length
    let response_count := (issues.filter (fun i => tdTruthy i.first_response_time)).length
    some
      { total_issues := total,
        resolved_issues := resolved,
        pending_issues := pending,
        no_response_issues := no_resp,
        resolution_rate :=
          if 0 < total then (resolved : ℚ) / (total : ℚ) * 100 else 0,
        response_rate :=
          if 0 < total then (response_count : ℚ) / (total : ℚ) * 100 else 0 }

/-- Codepoint ranges of the characters matched by `\d` in a CPython `str`
pattern: exactly the characters `c` with `c.isdecimal()` (Unicode category Nd,
UCD 14.0.0), which is the class the `re` engine tests for `\d`.  Arabic-Indic
digits (0x660-0x669) are decimal digits. -/
def digitRanges : List (Nat × Nat) :=
  [(48, 57), (1632, 1641), (1776, 1785), (1984, 1993), (2406, 2415), (2534, 2543),
   (2662, 2671), (2790, 2799), (2918, 2927), (3046, 3055), (3174, 3183), (3302, 3311),
   (3430, 3439), (3558, 3567), (3664, 3673), (3792, 3801), (3872, 3881), (4160, 4169),
   (4240, 4249), (6112, 6121), (6160, 6169), (6470, 6479), (6608, 6617), (6784, 6793),
   (6800, 6809), (6992, 7001), (7088, 7097), (7232, 7241), (7248, 7257), (42528, 42537),
   (43216, 43225), (43264, 43273), (43472, 43481), (43504, 43513), (43600, 43609), (44016, 44025),
   (65296, 65305), (66720, 66729), (68912, 68921), (69734, 69743), (69872, 69881), (69942, 69951),
   (70096, 70105), (70384, 70393), (70736, 70745), (70864, 70873), (71248, 71257), (71360, 71369),
   (71472, 71481), (71904, 71913), (72016, 72025), (72784, 72793), (73040, 73049), (73120, 73129),
   (92768, 92777), (92864, 92873), (93008, 93017), (120782, 120831), (123200, 123209), (123632, 123641),
   (125264, 125273), (130032, 130041)]

/-- Codepoint ranges of the characters matched by `\w` in a CPython `str`
pattern: exactly the characters `c` with `c.isalnum()` or `c = '_'`
(UCD 14.0.0), the class the `re` engine tests for `\w` and at word
boundaries `\b`.  Letters of all scripts (in particular Arabic letters) and
all digit characters are word characters; every `digitRanges` codepoint lies
in one of these ranges. -/
def wordRanges : List (Nat × Nat) :=
  [(48, 57), (65, 90), (95, 95), (97, 122), (170, 170), (178, 179),
   (181, 181), (185, 186), (188, 190), (192, 214), (216, 246), (248, 705),
   (710, 721), (736, 740), (748, 748), (750, 750), (880, 884), (886, 887),
   (890, 893), (895, 895), (902, 902), (904, 906), (908, 908), (910, 929),
   (931, 1013), (1015, 1153), (1162, 1327), (1329, 1366), (1369, 1369), (1376, 1416),
   (1488, 1514), (1519, 1522), (1568, 1610), (1632, 1641), (1646, 1647), (1649, 1747),
   (1749, 1749), (1765, 1766), (1774, 1788), (1791, 1791), (1808, 1808), (1810, 1839),
   (1869, 1957), (1969, 1969), (1984, 2026), (2036, 2037), (2042, 2042), (2048, 2069),
   (2074, 2074), (2084, 2084), (2088, 2088), (2112, 2136), (2144, 2154), (2160, 2183),
   (2185, 2190), (2208, 2249), (2308, 2361), (2365, 2365), (2384, 2384), (2392, 2401),
   (2406, 2415), (2417, 2432), (2437, 2444), (2447, 2448), (2451, 2472), (2474, 2480),
   (2482, 2482), (2486, 2489), (2493, 2493), (2510, 2510), (2524, 2525), (2527, 2529),
   (2534, 2545), (2548, 2553), (2556, 2556), (2565, 2570), (2575, 2576), (2579, 2600),
   (2602, 2608), (2610, 2611), (2613, 2614), (2616, 2617), (2649, 2652), (2654, 2654),
   (2662, 2671), (2674, 2676), (2693, 2701), (2703, 2705), (2707, 2728), (2730, 2736),
   (2738, 2739), (2741, 2745), (2749, 2749), (2768, 2768), (2784, 2785), (2790, 2799),
   (2809, 2809), (2821, 2828), (2831, 2832), (2835, 2856), (2858, 2864), (2866, 2867),
   (2869, 2873), (2877, 2877), (2908, 2909), (2911, 2913), (2918, 2927), (2929, 2935),
   (2947, 2947), (2949, 2954), (2958, 2960), (2962, 2965), (2969, 2970), (2972, 2972),
   (2974, 2975), (2979, 2980), (2984, 2986), (2990, 3001), (3024, 3024), (3046, 3058),
   (3077, 3084), (3086, 3088), (3090, 3112), (3114, 3129), (3133, 3133), (3160, 3162),
   (3165, 3165), (3168, 3169), (3174, 3183), (3192, 3198), (3200, 3200), (3205, 3212),
   (3214, 3216), (3218, 3240), (3242, 3251), (3253, 3257), (3261, 3261), (3293, 3294),
   (3296, 3297), (3302, 3311), (3313, 3314), (3332, 3340), (3342, 3344), (3346, 3386),
   (3389, 3389), (3406, 3406), (3412, 3414), (3416, 3425), (3430, 3448), (3450, 3455),
   (3461, 3478), (3482, 3505), (3507, 3515), (3517, 3517), (3520, 3526), (3558, 3567),
   (3585, 3632), (3634, 3635), (3648, 3654), (3664, 3673), (3713, 3714), (3716, 3716),
   (3718, 3722), (3724, 3747), (3749, 3749), (3751, 3760), (3762, 3763), (3773, 3773),
   (3776, 3780), (3782, 3782), (3792, 3801), (3804, 3807), (3840, 3840), (3872, 3891),
   (3904, 3911), (3913, 3948), (3976, 3980), (4096, 4138), (4159, 4169), (4176, 4181),
   (4186, 4189), (4193, 4193), (4197, 4198), (4206, 4208), (4213, 4225), (4238, 4238),
   (4240, 4249), (4256, 4293), (4295, 4295), (4301, 4301), (4304, 4346), (4348, 4680),
   (4682, 4685), (4688, 4694), (4696, 4696), (4698, 4701), (4704, 4744), (4746, 4749),
   (4752, 4784), (4786, 4789), (4792, 4798), (4800, 4800), (4802, 4805), (4808, 4822),
   (4824, 4880), (4882, 4885), (4888, 4954), (4969, 4988), (4992, 5007), (5024, 5109),
   (5112, 5117), (5121, 5740), (5743, 5759), (5761, 5786), (5792, 5866), (5870, 5880),
   (5888, 5905), (5919, 5937), (5952, 5969), (5984, 5996), (5998, 6000), (6016, 6067),
   (6103, 6103), (6108, 6108), (6112, 6121), (6128, 6137), (6160, 6169), (6176, 6264),
   (6272, 6276), (6279, 6312), (6314, 6314), (6320, 6389), (6400, 6430), (6470, 6509),
   (6512, 6516), (6528, 6571), (6576, 6601), (6608, 6618), (6656, 6678), (6688, 6740),
   (6784, 6793), (6800, 6809), (6823, 6823), (6917, 6963), (6981, 6988), (6992, 7001),
   (7043, 7072), (7086, 7141), (7168, 7203), (7232, 7241), (7245, 7293), (7296, 7304),
   (7312, 7354), (7357, 7359), (7401, 7404), (7406, 7411), (7413, 7414), (7418, 7418),
   (7424, 7615), (7680, 7957), (7960, 7965), (7968, 8005), (8008, 8013), (8016, 8023),
   (8025, 8025), (8027, 8027), (8029, 8029), (8031, 8061), (8064, 8116), (8118, 8124),
   (8126, 8126), (8130, 8132), (8134, 8140), (8144, 8147), (8150, 8155), (8160, 8172),
   (8178, 8180), (8182, 8188), (8304, 8305), (8308, 8313), (8319, 8329), (8336, 8348),
   (8450, 8450), (8455, 8455), (8458, 8467), (8469, 8469), (8473, 8477), (8484, 8484),
   (8486, 8486), (8488, 8488), (8490, 8493), (8495, 8505), (8508, 8511), (8517, 8521),
   (8526, 8526), (8528, 8585), (9312, 9371), (9450, 9471), (10102, 10131), (11264, 11492),
   (11499, 11502), (11506, 11507), (11517, 11517), (11520, 11557), (11559, 11559), (11565, 11565),
   (11568, 11623), (11631, 11631), (11648, 11670), (11680, 11686), (11688, 11694), (11696, 11702),
   (11704, 11710), (11712, 11718), (11720, 11726), (11728, 11734), (11736, 11742), (11823, 11823),
   (12293, 12295), (12321, 12329), (12337, 12341), (12344, 12348), (12353, 12438), (12445, 12447),
   (12449, 12538), (12540, 12543), (12549, 12591), (12593, 12686), (12690, 12693), (12704, 12735),
   (12784, 12799), (12832, 12841), (12872, 12879), (12881, 12895), (12928, 12937), (12977, 12991),
   (13312, 19903), (19968, 42124), (42192, 42237), (42240, 42508), (42512, 42539), (42560, 42606),
   (42623, 42653), (42656, 42735), (42775, 42783), (42786, 42888), (42891, 42954), (42960, 42961),
   (42963, 42963), (42965, 42969), (42994, 43009), (43011, 43013), (43015, 43018), (43020, 43042),
   (43056, 43061), (43072, 43123), (43138, 43187), (43216, 43225), (43250, 43255), (43259, 43259),
   (43261, 43262), (43264, 43301), (43312, 43334), (43360, 43388), (43396, 43442), (43471, 43481),
   (43488, 43492), (43494, 43518), (43520, 43560), (43584, 43586), (43588, 43595), (43600, 43609),
   (43616, 43638), (43642, 43642), (43646, 43695), (43697, 43697), (43701, 43702), (43705, 43709),
   (43712, 43712), (43714, 43714), (43739, 43741), (43744, 43754), (43762, 43764), (43777, 43782),
   (43785, 43790), (43793, 43798), (43808, 43814), (43816, 43822), (43824, 43866), (43868, 43881),
   (43888, 44002), (44016, 44025), (44032, 55203), (55216, 55238), (55243, 55291), (63744, 64109),
   (64112, 64217), (64256, 64262), (64275, 64279), (64285, 64285), (64287, 64296), (64298, 64310),
   (64312, 64316), (64318, 64318), (64320, 64321), (64323, 64324), (64326, 64433), (64467, 64829),
   (64848, 64911), (64914, 64967), (65008, 65019), (65136, 65140), (65142, 65276), (65296, 65305),
   (65313, 65338), (65345, 65370), (65382, 65470), (65474, 65479), (65482, 65487), (65490, 65495),
   (65498, 65500), (65536, 65547), (65549, 65574), (65576, 65594), (65596, 65597), (65599, 65613),
   (65616, 65629), (65664, 65786), (65799, 65843), (65856, 65912), (65930, 65931), (66176, 66204),
   (66208, 66256), (66273, 66299), (66304, 66339), (66349, 66378), (66384, 66421), (66432, 66461),
   (66464, 66499), (66504, 66511), (66513, 66517), (66560, 66717), (66720, 66729), (66736, 66771),
   (66776, 66811), (66816, 66855), (66864, 66915), (66928, 66938), (66940, 66954), (66956, 66962),
   (66964, 66965), (66967, 66977), (66979, 66993), (66995, 67001), (67003, 67004), (67072, 67382),
   (67392, 67413), (67424, 67431), (67456, 67461), (67463, 67504), (67506, 67514), (67584, 67589),
   (67592, 67592), (67594, 67637), (67639, 67640), (67644, 67644), (67647, 67669), (67672, 67702),
   (67705, 67742), (67751, 67759), (67808, 67826), (67828, 67829), (67835, 67867), (67872, 67897),
   (67968, 68023), (68028, 68047), (68050, 68096), (68112, 68115), (68117, 68119), (68121, 68149),
   (68160, 68168), (68192, 68222), (68224, 68255), (68288, 68295), (68297, 68324), (68331, 68335),
   (68352, 68405), (68416, 68437), (68440, 68466), (68472, 68497), (68521, 68527), (68608, 68680),
   (68736, 68786), (68800, 68850), (68858, 68899), (68912, 68921), (69216, 69246), (69248, 69289),
   (69296, 69297), (69376, 69415), (69424, 69445), (69457, 69460), (69488, 69505), (69552, 69579),
   (69600, 69622), (69635, 69687), (69714, 69743), (69745, 69746), (69749, 69749), (69763, 69807),
   (69840, 69864), (69872, 69881), (69891, 69926), (69942, 69951), (69956, 69956), (69959, 69959),
   (69968, 70002), (70006, 70006), (70019, 70066), (70081, 70084), (70096, 70106), (70108, 70108),
   (70113, 70132), (70144, 70161), (70163, 70187), (70272, 70278), (70280, 70280), (70282, 70285),
   (70287, 70301), (70303, 70312), (70320, 70366), (70384, 70393), (70405, 70412), (70415, 70416),
   (70419, 70440), (70442, 70448), (70450, 70451), (70453, 70457), (70461, 70461), (70480, 70480),
   (70493, 70497), (70656, 70708), (70727, 70730), (70736, 70745), (70751, 70753), (70784, 70831),
   (70852, 70853), (70855, 70855), (70864, 70873), (71040, 71086), (71128, 71131), (71168, 71215),
   (71236, 71236), (71248, 71257), (71296, 71338), (71352, 71352), (71360, 71369), (71424, 71450),
   (71472, 71483), (71488, 71494), (71680, 71723), (71840, 71922), (71935, 71942), (71945, 71945),
   (71948, 71955), (71957, 71958), (71960, 71983), (71999, 71999), (72001, 72001), (72016, 72025),
   (72096, 72103), (72106, 72144), (72161, 72161), (72163, 72163), (72192, 72192), (72203, 72242),
   (72250, 72250), (72272, 72272), (72284, 72329), (72349, 72349), (72368, 72440), (72704, 72712),
   (72714, 72750), (72768, 72768), (72784, 72812), (72818, 72847), (72960, 72966), (72968, 72969),
   (72971, 73008), (73030, 73030), (73040, 73049), (73056, 73061), (73063, 73064), (73066, 73097),
   (73112, 73112), (73120, 73129), (73440, 73458), (73648, 73648), (73664, 73684), (73728, 74649),
   (74752, 74862), (74880, 75075), (77712, 77808), (77824, 78894), (82944, 83526), (92160, 92728),
   (92736, 92766), (92768, 92777), (92784, 92862), (92864, 92873), (92880, 92909), (92928, 92975),
   (92992, 92995), (93008, 93017), (93019, 93025), (93027, 93047), (93053, 93071), (93760, 93846),
   (93952, 94026), (94032, 94032), (94099, 94111), (94176, 94177), (94179, 94179), (94208, 100343),
   (100352, 101589), (101632, 101640), (110576, 110579), (110581, 110587), (110589, 110590), (110592, 110882),
   (110928, 110930), (110948, 110951), (110960, 111355), (113664, 113770), (113776, 113788), (113792, 113800),
   (113808, 113817), (119520, 119539), (119648, 119672), (119808, 119892), (119894, 119964), (119966, 119967),
   (119970, 119970), (119973, 119974), (119977, 119980), (119982, 119993), (119995, 119995), (119997, 120003),
   (120005, 120069), (120071, 120074), (120077, 120084), (120086, 120092), (120094, 120121), (120123, 120126),
   (120128, 120132), (120134, 120134), (120138, 120144), (120146, 120485), (120488, 120512), (120514, 120538),
   (120540, 120570), (120572, 120596), (120598, 120628), (120630, 120654), (120656, 120686), (120688, 120712),
   (120714, 120744), (120746, 120770), (120772, 120779), (120782, 120831), (122624, 122654), (123136, 123180),
   (123191, 123197), (123200, 123209), (123214, 123214), (123536, 123565), (123584, 123627), (123632, 123641),
   (124896, 124902), (124904, 124907), (124909, 124910), (124912, 124926), (124928, 125124), (125127, 125135),
   (125184, 125251), (125259, 125259), (125264, 125273), (126065, 126123), (126125, 126127), (126129, 126132),
   (126209, 126253), (126255, 126269), (126464, 126467), (126469, 126495), (126497, 126498), (126500, 126500),
   (126503, 126503), (126505, 126514), (126516, 126519), (126521, 126521), (126523, 126523), (126530, 126530),
   (126535, 126535), (126537, 126537), (126539, 126539), (126541, 126543), (126545, 126546), (126548, 126548),
   (126551, 126551), (126553, 126553), (126555, 126555), (126557, 126557), (126559, 126559), (126561, 126562),
   (126564, 126564), (126567, 126570), (126572, 126578), (126580, 126583), (126585, 126588), (126590, 126590),
   (126592, 126601), (126603, 126619), (126625, 126627), (126629, 126633), (126635, 126651), (127232, 127244),
   (130032, 130041), (131072, 173791), (173824, 177976), (177984, 178205), (178208, 183969), (183984, 191456),
   (194560, 195101), (196608, 201546)]

/-- Membership of a character in a sorted list of inclusive codepoint
ranges. -/
def inRanges (rs : List (Nat × Nat)) (c : Char) : Bool :=
  rs.any (fun p => p.1 ≤ c.toNat && c.toNat ≤ p.2)

/-- The regex word-character class `\w` of the pattern `r'\b\d{7}\b'`. -/
def isWordChar (c : Char) : Bool :=
  inRanges wordRanges c

/-- The regex digit class `\d` of the pattern `r'\b\d{7}\b'`. -/
def isDigitChar (c : Char) : Bool :=
  inRanges digitRanges c

/-- Word-boundary condition `\b` to the left of a match: the match starts at
the beginning of the text or right after a non-word character.  `prev` is the
character immediately before the scan position, `none` at the start. -/
def prevOk : Option Char → Bool
  | none => true
  | some c => !(isWordChar c)

/-- Word-boundary condition `\b` to the right of a match: the match ends at
the end of the text or right before a non-word character. -/
def nextOk : List Char → Bool
  | [] => true
  | c :: _ => !(isWordChar c)

/-- Left-to-right scan of `re.findall(r'\b\d{7}\b', s)` (pattern of line 152,
applied at line 200): at each position, if the two boundary conditions hold
and the next seven characters are digits, emit them.  `findall` scans left to
right and resumes after each match; since a match must be immediately
preceded by a non-word character (in particular a non-digit, as `prevOk`
requires) no match can begin inside or directly after another one, so every
position that would be skipped fails the left-boundary test anyway and the
scan is rendered with a single-character advance, which keeps the recursion
structural. -/
def scanTickets (prev : Option Char) : List Char → List (List Char)
  | [] => []
  | c :: cs =>
    if prevOk prev && ((c :: cs).take 7).length == 7
        && ((c :: cs).take 7).all isDigitChar && nextOk ((c :: cs).drop 7) then
      (c :: cs).take 7 :: scanTickets (some c) cs
    else
      scanTickets (some c) cs

/-- `ticket_ids = re.findall(self.patterns['ticket_pattern'], message)`
(line 200) on the character list of the message body. -/
def findTicketIds (s : List Char) : List (List Char) :=
  scanTickets none s

/-- `step` with the close-and-reopen branch inside the continuation-failure
case (lines 551-577) replaced by leaving the state unchanged.  Used to show
that branch is unreachable. -/
def stepNoReopen (issues : List Issue) (msg : Message) : List Issue :=
  if msg.message_type = MsgType.issue_report
      && msg.sender_type = SenderType.customer then
    updateLast closeAsPending issues ++ [mkIssue (issues.length + 1) msg]
  else
    match issues.getLast? with
    | none => issues
    | some cur =>
      if belongs_to_issue cur msg then
        updateLast (appendMsg msg) issues
      else issues

/-- A customer message with a fixed sender and empty body, used as concrete
input for the engine. -/
def custMsg (t : Int) (ty : MsgType) : Message :=
  { timestamp := t, sender := "cust", sender_type := SenderType.customer,
    content := "", message_type := ty, language := "arabic",
    has_ticket_id := false, ticket_ids := [] }

/-- A support message with a fixed sender and empty body, used as concrete
input for the engine. -/
def suppMsg (t : Int) (ty : MsgType) : Message :=
  { timestamp := t, sender := "supp", sender_type := SenderType.support,
    content := "", message_type := ty, language := "arabic",
    has_ticket_id := false, ticket_ids := [] }

theorem updateLast_length (f : Issue → Issue) (l : List Issue) :
    (updateLast f l).length = l.length := by
  induction l with
  | nil => rfl
  | cons x t ih =>
    cases t with
    | nil => rfl
    | cons y t2 => simpa [updateLast] using ih

theorem updateLast_getElem? (f : Issue → Issue) (l : List Issue) (i : Nat) :
    (updateLast f l)[i]? = if i + 1 = l.length then (l[i]?).map f else l[i]? := by
  induction l generalizing i with
  | nil => simp [updateLast]
  | cons x t ih =>
    cases t with
    | nil =>
      cases i with
      | zero => simp [updateLast]
      | succ n => simp [updateLast]
    | cons y t2 =>
      cases i with
      | zero =>
        have h0 : ¬(0 + 1 = (x :: y :: t2).length) := by
          simp only [List.length_cons]
          omega
        rw [if_neg h0]
        simp [updateLast]
      | succ n =>
        have h1 : (updateLast f (x :: y :: t2))[n + 1]? = (updateLast f (y :: t2))[n]? := by
          simp [updateLast]
        have h2 : (x :: y :: t2)[n + 1]? = (y :: t2)[n]? := by simp
        rw [h1, ih n, h2]
        have h3 : (n + 1 = (y :: t2).length) ↔ (n + 1 + 1 = (x :: y :: t2).length) := by
          simp only [List.length_cons]
          omega
        by_cases h : n + 1 = (y :: t2).length
        · rw [if_pos h, if_pos (h3.mp h)]
        · rw [if_neg h, if_neg (fun hc => h (h3.mpr hc))]

theorem updateLast_getLast? (f : Issue → Issue) (l : List Issue) :
    (updateLast f l).getLast? = l.getLast?.map f := by
  rw [List.getLast?_eq_getElem?, List.getLast?_eq_getElem?, updateLast_getElem?,
    updateLast_length]
  cases l with
  | nil => simp
  | cons x t => rw [if_pos (by simp only [List.length_cons]; omega)]

/-- C10: the close-and-reopen branch inside the continuation-failure case of
`group_into_issues` (lines 551-577) is unreachable: a customer `issue_report`
message is diverted to the new-issue branch at the top of the loop, and a
customer `follow_up` or `general` message always passes the
`belongs_to_issue` test, so the guard of that branch can never be true and
`step` coincides with `stepNoReopen`, the transition with the branch
removed. -/
theorem C10_reopen_branch_unreachable (issues : List Issue) (msg : Message) :
    step issues msg = stepNoReopen issues msg := by
  by_cases h1 : msg.message_type = MsgType.issue_report ∧ msg.sender_type = SenderType.customer
  · simp [step, stepNoReopen, h1.1, h1.2]
  · have h1' : ¬(decide (msg.message_type = MsgType.issue_report)
        && decide (msg.sender_type = SenderType.customer)) = true := by
      simpa [Bool.and_eq_true, decide_eq_true_eq] using h1
    cases hL : issues.getLast? with
    | none => simp [step, stepNoReopen, hL, h1']
    | some cur =>
      by_cases hbel : belongs_to_issue cur msg = true
      · simp [step, stepNoReopen, hL, h1', hbel]
      · have hdead : ¬(decide (msg.sender_type = SenderType.customer)
            && (decide (msg.message_type = MsgType.issue_report)
                || decide (msg.message_type = MsgType.general))) = true := by
          simp only [Bool.and_eq_true, Bool.or_eq_true, decide_eq_true_eq]
          rintro ⟨hc, hg | hg⟩
          · exact h1 ⟨hg, hc⟩
          · apply hbel
            simp [belongs_to_issue, hc, hg]
        simp [step, stepNoReopen, hL, h1', hbel, hdead]

/-- C2 counterexample: a lone customer message with intent `general` (or
`follow_up`) and no open Issue is dropped by `group_into_issues` — no Issue is
opened from it, contradicting the claim that any customer message opens a new
Issue when none is open. -/
theorem C2_counterexample :
    group_into_issues [custMsg 0 MsgType.general] = []
    ∧ group_into_issues [custMsg 0 MsgType.follow_up] = [] := by
  constructor <;> rfl

/-- C2 (amended): when no Issue exists yet, a customer message opens a new
Issue (with that message as its sole content) exactly when its intent is
`issue_report`; a customer message with intent `follow_up` or `general`
arriving with no Issue in the state is dropped — no Issue is created and the
message joins no Issue. -/
theorem C2_new_issue_only_on_issue_report (msg : Message) :
    (msg.sender_type = SenderType.customer → msg.message_type = MsgType.issue_report →
      step [] msg = [mkIssue 1 msg] ∧ (mkIssue 1 msg).messages = [msg])
    ∧ (msg.sender_type = SenderType.customer →
        (msg.message_type = MsgType.follow_up ∨ msg.message_type = MsgType.general) →
        step [] msg = []) := by
  constructor
  · intro hc ht
    exact ⟨by simp [step, ht, hc, updateLast], rfl⟩
  · intro hc ht
    have hne : ¬(msg.message_type = MsgType.issue_report) := by
      rcases ht with h | h <;> simp [h]
    simp [step, hne]

/-- Witness for `C2_new_issue_only_on_issue_report` at concrete messages. -/
theorem C2_witness :
    step [] (custMsg 0 MsgType.issue_report) = [mkIssue 1 (custMsg 0 MsgType.issue_report)]
    ∧ step [] (custMsg 0 MsgType.general) = [] :=
  ⟨((C2_new_issue_only_on_issue_report (custMsg 0 MsgType.issue_report)).1 rfl rfl).1,
   (C2_new_issue_only_on_issue_report (custMsg 0 MsgType.general)).2 rfl (Or.inr rfl)⟩

/-- C1 counterexample: with an Issue open (created from a customer
`issue_report` at time 0) a second customer `issue_report` arrives 60 seconds
later, so the continuation condition holds (gap of 60 s is at most 2 hours);
the engine nevertheless creates a second Issue and does not append the message
to the open one (both Issues end with a single message). -/
theorem C1_counterexample :
    ([custMsg 0 MsgType.issue_report].foldl step []
        = [mkIssue 1 (custMsg 0 MsgType.issue_report)])
    ∧ (mkIssue 1 (custMsg 0 MsgType.issue_report)).status = Status.open_
    ∧ belongs_to_issue (mkIssue 1 (custMsg 0 MsgType.issue_report))
        (custMsg 60 MsgType.issue_report) = true
    ∧ (group_into_issues
        [custMsg 0 MsgType.issue_report, custMsg 60 MsgType.issue_report]).length = 2
    ∧ (group_into_issues
        [custMsg 0 MsgType.issue_report, custMsg 60 MsgType.issue_report]).map
        (fun i => i.messages.length) = [1, 1] := by
  exact ⟨rfl, rfl, rfl, rfl, rfl⟩

/-- C1 (amended): while an Issue is open, every classified message that is
not a customer `issue_report` and satisfies the continuation condition
(`belongs_to_issue`: gap at most 2 hours, or a shared ticket reference, or a
customer `follow_up`/`general` message) is appended to the currently open
Issue and creates no new Issue: the Issue list keeps its length, its last
element becomes the open Issue with the message appended, and all other
Issues are untouched.  (A customer `issue_report` message is instead diverted
to the new-issue branch even when the continuation condition holds, which is
what the counterexample exhibits.) -/
theorem C1_continuation_appends (issues : List Issue) (cur : Issue) (msg : Message)
    (hcur : issues.getLast? = some cur)
    (hopen : cur.status = Status.open_)
    (hnotir : ¬(msg.message_type = MsgType.issue_report ∧ msg.sender_type = SenderType.customer))
    (hbel : belongs_to_issue cur msg = true) :
    (step issues msg).length = issues.length
    ∧ (step issues msg).getLast? = some (appendMsg msg cur)
    ∧ (appendMsg msg cur).messages = cur.messages ++ [msg]
    ∧ ∀ i, i + 1 < issues.length → (step issues msg)[i]? = issues[i]? := by
  have htop : ¬(decide (msg.message_type = MsgType.issue_report)
      && decide (msg.sender_type = SenderType.customer)) = true := by
    simpa [Bool.and_eq_true, decide_eq_true_eq] using hnotir
  have hstep : step issues msg = updateLast (appendMsg msg) issues := by
    simp [step, htop, hcur, hbel]
  refine ⟨by rw [hstep, updateLast_length], ?_, rfl, ?_⟩
  · rw [hstep, updateLast_getLast?, hcur]
    rfl
  · intro i hi
    rw [hstep, updateLast_getElem?, if_neg (by omega)]

/-- C3 counterexample: after a support `resolution` message at 600 s the
Issue has `resolution_time = 600` s; a second support `resolution` message at
1200 s (within the 2-hour gap) overwrites it to 1200 s and moves `end_time`
to 1200 s — so `resolution_latency` is not set at most once and `end_time`
is not frozen. -/
theorem C3_counterexample :
    (group_into_issues
        [custMsg 0 MsgType.issue_report, suppMsg 600 MsgType.resolution]).map
        (fun i => i.resolution_time) = [some 600]
    ∧ (group_into_issues
        [custMsg 0 MsgType.issue_report, suppMsg 600 MsgType.resolution,
         suppMsg 1200 MsgType.resolution]).map
        (fun i => (i.resolution_time, i.end_time, i.status))
      = [(some 1200, some 1200, Status.resolved)] := by
  exact ⟨rfl, rfl⟩

/-- C3 (amended): `resolution_time` is changed only by appending a support
message classified as `resolution`; every such appended message sets
`status = resolved`, `end_time` to its timestamp and `resolution_time` to its
timestamp minus `start_time`, overwriting any earlier values — so the last
appended support resolution message determines the final `resolution_time`
and `end_time`.  Issue creation leaves `resolution_time` unset, and the
close/finalize operations act as the identity on an Issue whose status is no
longer `open`. -/
theorem C3_resolution_last_wins (iss : Issue) (msg : Message) (n : Nat) (m : Message) :
    ((appendMsg msg iss).resolution_time ≠ iss.resolution_time →
      msg.sender_type = SenderType.support ∧ msg.message_type = MsgType.resolution)
    ∧ (msg.sender_type = SenderType.support → msg.message_type = MsgType.resolution →
        (appendMsg msg iss).resolution_time = some (msg.timestamp - iss.start_time)
        ∧ (appendMsg msg iss).status = Status.resolved
        ∧ (appendMsg msg iss).end_time = some msg.timestamp)
    ∧ (mkIssue n m).resolution_time = none
    ∧ ((closeAsPending iss).resolution_time = iss.resolution_time)
    ∧ (iss.status ≠ Status.open_ → closeAsPending iss = iss)
    ∧ ((finalizeIssue iss).resolution_time = iss.resolution_time)
    ∧ (iss.status ≠ Status.open_ → finalizeIssue iss = iss) := by
  refine ⟨?_, ?_, rfl, ?_, ?_, ?_, ?_⟩
  · intro hch
    by_cases hs : msg.sender_type = SenderType.support
    · by_cases hr : msg.message_type = MsgType.resolution
      · exact ⟨hs, hr⟩
      · exact absurd (by simp [appendMsg, hr]) hch
    · exact absurd (by simp [appendMsg, hs]) hch
  · intro hs hr
    exact ⟨by simp [appendMsg, hs, hr], by simp [appendMsg, hs, hr],
      by simp [appendMsg, hs, hr]⟩
  · unfold closeAsPending
    split <;> rfl
  · intro h
    simp [closeAsPending, h]
  · unfold finalizeIssue
    split <;> rfl
  · intro h
    simp [finalizeIssue, h]

/-- Witness for `C3_resolution_last_wins` at a concrete Issue and message. -/
theorem C3_witness :
    (appendMsg (suppMsg 1200 MsgType.resolution)
        (appendMsg (suppMsg 600 MsgType.resolution)
          (mkIssue 1 (custMsg 0 MsgType.issue_report)))).resolution_time = some 1200 :=
  ((C3_resolution_last_wins
      (appendMsg (suppMsg 600 MsgType.resolution)
        (mkIssue 1 (custMsg 0 MsgType.issue_report)))
      (suppMsg 1200 MsgType.resolution) 1 (custMsg 0 MsgType.issue_report)).2.1
    rfl rfl).1

/-- C4: evaluation of the code at the failing input.  A customer
`issue_report` at time 0 answered by a support `acknowledgment` at the same
timestamp records `first_response_time = 0`; end-of-stream finalization then
closes the Issue as `no_response` (Python truthiness of `timedelta(0)`),
although it did receive a first response — the claim (and the spec) require
`pending` here. -/
theorem C4_code_eval :
    (group_into_issues
        [custMsg 0 MsgType.issue_report, suppMsg 0 MsgType.acknowledgment]).map
        (fun i => (i.status, i.first_response_time, i.end_time))
      = [(Status.no_response, some 0, some 0)] := rfl

/-- C5: `first_response_time` is set by appending the first support message
whose intent is acknowledgment/response/request_info, to that message's
timestamp minus the Issue's `start_time`; once set it is never overwritten by
any later message, it stays unset on non-qualifying messages, it is unset at
Issue creation, and the close/finalize operations never touch it. -/
theorem C5_first_response_once (iss : Issue) (msg : Message) (n : Nat) (m : Message) :
    (iss.first_response_time = none → msg.sender_type = SenderType.support →
      respIntent msg.message_type = true →
      (appendMsg msg iss).first_response_time = some (msg.timestamp - iss.start_time))
    ∧ (∀ d : Int, iss.first_response_time = some d →
        (appendMsg msg iss).first_response_time = some d)
    ∧ (iss.first_response_time = none →
        ¬(msg.sender_type = SenderType.support ∧ respIntent msg.message_type = true) →
        (appendMsg msg iss).first_response_time = none)
    ∧ (mkIssue n m).first_response_time = none
    ∧ ((closeAsPending iss).first_response_time = iss.first_response_time)
    ∧ ((finalizeIssue iss).first_response_time = iss.first_response_time) := by
  refine ⟨?_, ?_, ?_, rfl, ?_, ?_⟩
  · intro h0 hs hr
    simp [appendMsg, h0, hs, hr]
  · intro d hd
    simp [appendMsg, hd]
  · intro h0 hnot
    by_cases hs : msg.sender_type = SenderType.support
    · have hr : respIntent msg.message_type = false := by
        cases hr : respIntent msg.message_type
        · rfl
        · exact absurd ⟨hs, hr⟩ hnot
      simp [appendMsg, h0, hs, hr]
    · simp [appendMsg, h0, hs]
  · unfold closeAsPending
    split <;> rfl
  · unfold finalizeIssue
    split <;> rfl

/-- Witness for `C5_first_response_once` at a concrete Issue and message. -/
theorem C5_witness :
    (appendMsg (suppMsg 300 MsgType.acknowledgment)
        (mkIssue 1 (custMsg 0 MsgType.issue_report))).first_response_time = some 300
    ∧ (appendMsg (suppMsg 900 MsgType.response)
        (appendMsg (suppMsg 300 MsgType.acknowledgment)
          (mkIssue 1 (custMsg 0 MsgType.issue_report)))).first_response_time = some 300 :=
  ⟨(C5_first_response_once (mkIssue 1 (custMsg 0 MsgType.issue_report))
      (suppMsg 300 MsgType.acknowledgment) 1 (custMsg 0 MsgType.issue_report)).1
      rfl rfl rfl,
   (C5_first_response_once
      (appendMsg (suppMsg 300 MsgType.acknowledgment)
        (mkIssue 1 (custMsg 0 MsgType.issue_report)))
      (suppMsg 900 MsgType.response) 1 (custMsg 0 MsgType.issue_report)).2.1
      300 rfl⟩

/-- Case analysis on `step`: it either closes the current Issue (if open) and
appends a fresh one, appends the message to the current Issue, or leaves the
state unchanged. -/
theorem step_shape (l : List Issue) (msg : Message) :
    step l msg = updateLast closeAsPending l ++ [mkIssue (l.length + 1) msg]
    ∨ (∃ c, l.getLast? = some c ∧ belongs_to_issue c msg = true
        ∧ step l msg = updateLast (appendMsg msg) l)
    ∨ step l msg = l := by
  by_cases h1 : (decide (msg.message_type = MsgType.issue_report)
      && decide (msg.sender_type = SenderType.customer)) = true
  · left
    unfold step
    rw [if_pos h1]
  · cases hL : l.getLast? with
    | none =>
      right; right
      unfold step
      rw [if_neg h1, hL]
    | some c =>
      by_cases hb : belongs_to_issue c msg = true
      · right; left
        refine ⟨c, rfl, hb, ?_⟩
        unfold step
        rw [if_neg h1, hL]
        dsimp only
        rw [if_pos hb]
      · by_cases hd : (decide (msg.sender_type = SenderType.customer)
            && (decide (msg.message_type = MsgType.issue_report)
                || decide (msg.message_type = MsgType.general))) = true
        · left
          unfold step
          rw [if_neg h1, hL]
          dsimp only
          rw [if_neg hb, if_pos hd]
        · right; right
          unfold step
          rw [if_neg h1, hL]
          dsimp only
          rw [if_neg hb, if_neg hd]

/-- Indices strictly below the last position are untouched by `step`. -/
theorem step_getElem?_lt (l : List Issue) (msg : Message) (i : Nat)
    (hi : i + 1 < l.length) : (step l msg)[i]? = l[i]? := by
  rcases step_shape l msg with hs | ⟨c, _, _, hs⟩ | hs <;> rw [hs]
  · rw [List.getElem?_append_left (by rw [updateLast_length]; omega),
      updateLast_getElem?, if_neg (by omega)]
  · rw [updateLast_getElem?, if_neg (by omega)]

/-- Any Issue appearing in the output of `step` at or beyond the input length
is freshly created and therefore `open`. -/
theorem step_getElem?_ge (l : List Issue) (m : Message) (i : Nat) (b : Issue)
    (hi : l.length ≤ i) (hb : (step l m)[i]? = some b) :
    b.status = Status.open_ := by
  rcases step_shape l m with hs | ⟨c, _, _, hs⟩ | hs <;> rw [hs] at hb
  · rw [List.getElem?_append_right (by rw [updateLast_length]; omega),
      updateLast_length] at hb
    cases hk : i - l.length with
    | zero =>
      rw [hk] at hb
      simp only [List.getElem?_cons_zero, Option.some.injEq] at hb
      rw [← hb]
      rfl
    | succ n =>
      rw [hk] at hb
      simp at hb
  · rw [updateLast_getElem?, if_neg (by omega), List.getElem?_eq_none hi] at hb
    cases hb
  · rw [List.getElem?_eq_none hi] at hb
    cases hb

/-- The current Issue (the last of the list) is always `open` or `resolved`
on reachable states: a `pending` Issue is never the current one, because the
pointer moves to a fresh Issue in the same step that closes it. -/
def lastOpenOrResolved (l : List Issue) : Prop :=
  ∀ cur, l.getLast? = some cur →
    cur.status = Status.open_ ∨ cur.status = Status.resolved

theorem step_lastOpenOrResolved (l : List Issue) (msg : Message)
    (h : lastOpenOrResolved l) : lastOpenOrResolved (step l msg) := by
  rcases step_shape l msg with hs | ⟨c, hL, _, hs⟩ | hs <;> rw [hs]
  · intro cur hcur
    rw [List.getLast?_concat] at hcur
    cases hcur
    left
    rfl
  · intro cur hcur
    rw [updateLast_getLast?, hL, Option.map_some'] at hcur
    cases hcur
    rcases h c hL with hco | hcr
    · by_cases hcond : (decide (msg.sender_type = SenderType.support)
          && decide (msg.message_type = MsgType.resolution)) = true
      · right
        simp [appendMsg, hcond]
      · left
        simp [appendMsg, hcond, hco]
    · right
      by_cases hcond : (decide (msg.sender_type = SenderType.support)
          && decide (msg.message_type = MsgType.resolution)) = true
      · simp [appendMsg, hcond]
      · simp [appendMsg, hcond, hcr]
  · exact h

theorem run_lastOpenOrResolved (msgs : List Message) :
    lastOpenOrResolved (msgs.foldl step []) := by
  have key : ∀ l, lastOpenOrResolved l → lastOpenOrResolved (msgs.foldl step l) := by
    induction msgs with
    | nil => intro l h; exact h
    | cons m ms ih => intro l h; exact ih (step l m) (step_lastOpenOrResolved l m h)
  exact key [] (by intro cur h; cases h)

/-- C6: on every run of the segmentation engine Issue statuses move only
forward.  (i) A processing step never changes the status of an Issue that has
already left `open`: whatever index it occupies, its status is preserved (a
resolved current Issue can only be re-assigned `resolved` by a further
resolution message, which is no change of value).  (ii) Every Issue a step
adds beyond the existing ones is created with status `open`.  (iii)
End-of-stream finalization also never changes the status of an Issue that has
already left `open`.  Together: a status starts as `open`, moves at most once
into {pending, resolved, no_response}, and never changes afterwards. -/
theorem C6_status_forward (msgs : List Message) (msg : Message) (i : Nat) (a b : Issue) :
    ((msgs.foldl step [])[i]? = some a →
      (step (msgs.foldl step []) msg)[i]? = some b →
      a.status ≠ Status.open_ → b.status = a.status)
    ∧ (∀ l : List Issue, ∀ m : Message, l.length ≤ i → (step l m)[i]? = some b →
        b.status = Status.open_)
    ∧ (∀ l : List Issue, l[i]? = some a → (finalize l)[i]? = some b →
        a.status ≠ Status.open_ → b.status = a.status) := by
  refine ⟨?_, ?_, ?_⟩
  · intro hL hb hno
    set L := msgs.foldl step [] with hLdef
    have hilt : i < L.length := (List.getElem?_eq_some_iff.mp hL).1
    by_cases hlast : i + 1 = L.length
    · have hlastL : L.getLast? = some a := by
        rw [List.getLast?_eq_getElem?]
        have he : L.length - 1 = i := by omega
        rw [he]
        exact hL
      have ha : a.status = Status.resolved := by
        rcases run_lastOpenOrResolved msgs a hlastL with h | h
        · exact absurd h hno
        · exact h
      rcases step_shape L msg with hs | ⟨c, _, _, hs⟩ | hs <;> rw [hs] at hb
      · rw [List.getElem?_append_left (by rw [updateLast_length]; omega),
          updateLast_getElem?, if_pos hlast, hL, Option.map_some'] at hb
        cases hb
        rw [closeAsPending, if_neg (by rw [ha]; intro h; cases h)]
      · rw [updateLast_getElem?, if_pos hlast, hL, Option.map_some'] at hb
        cases hb
        by_cases hcond : (decide (msg.sender_type = SenderType.support)
            && decide (msg.message_type = MsgType.resolution)) = true
        · simp [appendMsg, hcond, ha]
        · simp [appendMsg, hcond]
      · rw [hL] at hb
        cases hb
        rfl
    · have : (step L msg)[i]? = L[i]? := step_getElem?_lt L msg i (by omega)
      rw [this, hL] at hb
      cases hb
      rfl
  · intro l m hi hb
    exact step_getElem?_ge l m i b hi hb
  · intro l hA hB hno
    rw [finalize, List.getElem?_map, hA, Option.map_some'] at hB
    cases hB
    rw [finalizeIssue, if_neg hno]

/-- Witness for `C6_status_forward`: a resolved Issue keeps status `resolved`
when a further support `response` message is appended by the next step. -/
theorem C6_witness :
    (appendMsg (suppMsg 700 MsgType.response)
        (appendMsg (suppMsg 600 MsgType.resolution)
          (mkIssue 1 (custMsg 0 MsgType.issue_report)))).status
      = (appendMsg (suppMsg 600 MsgType.resolution)
          (mkIssue 1 (custMsg 0 MsgType.issue_report))).status :=
  (C6_status_forward [custMsg 0 MsgType.issue_report, suppMsg 600 MsgType.resolution]
      (suppMsg 700 MsgType.response) 0
      (appendMsg (suppMsg 600 MsgType.resolution)
        (mkIssue 1 (custMsg 0 MsgType.issue_report)))
      (appendMsg (suppMsg 700 MsgType.response)
        (appendMsg (suppMsg 600 MsgType.resolution)
          (mkIssue 1 (custMsg 0 MsgType.issue_report))))).1
    rfl rfl (by decide)

theorem rate_bound (m n : Nat) (hm : m ≤ n) (hn : 0 < n) :
    0 ≤ (m : ℚ) / (n : ℚ) * 100 ∧ (m : ℚ) / (n : ℚ) * 100 ≤ 100 := by
  constructor
  · positivity
  · have hn' : (0 : ℚ) < (n : ℚ) := by exact_mod_cast hn
    have h1 : (m : ℚ) / (n : ℚ) ≤ 1 := by
      rw [div_le_one hn']
      exact_mod_cast hm
    calc (m : ℚ) / (n : ℚ) * 100 ≤ 1 * 100 := by
          apply mul_le_mul_of_nonneg_right h1
          norm_num
      _ = 100 := by norm_num

/-- C7 (amended): the resolution rate and the response rate computed by
`calculate_kpis` always lie in [0, 100]; on an empty Issue set the aggregator
does not compute rates at all but returns the structured no-data marker
(`{"error": "No issues found"}` in the source, `none` here) — it never
divides by zero, but neither does it return zero-valued rates. -/
theorem C7_rate_bounds (issues : List Issue) :
    (issues = [] → calculate_kpis issues = none)
    ∧ (∀ k : Kpis, calculate_kpis issues = some k →
        0 ≤ k.resolution_rate ∧ k.resolution_rate ≤ 100
        ∧ 0 ≤ k.response_rate ∧ k.response_rate ≤ 100) := by
  constructor
  · intro h
    rw [calculate_kpis, if_pos h]
  · intro k hk
    by_cases h : issues = []
    · rw [calculate_kpis, if_pos h] at hk
      cases hk
    · have hpos : 0 < issues.length := List.length_pos.mpr h
      simp only [calculate_kpis, if_neg h, Option.some.injEq] at hk
      rw [← hk]
      dsimp only
      rw [if_pos hpos, if_pos hpos]
      exact ⟨(rate_bound _ _ (List.length_filter_le _ _) hpos).1,
        (rate_bound _ _ (List.length_filter_le _ _) hpos).2,
        (rate_bound _ _ (List.length_filter_le _ _) hpos).1,
        (rate_bound _ _ (List.length_filter_le _ _) hpos).2⟩

/-- C7 counterexample: on the empty Issue set `calculate_kpis` returns the
error marker instead of a KPI record with both rates equal to 0, refuting the
claim that the computation returns 0 rates there. -/
theorem C7_counterexample : calculate_kpis [] = none := rfl

/-- The KPI record produced for the single open Issue of one customer
`issue_report`: one total Issue, nothing resolved or responded, both rates
zero. -/
def kpisExample : Kpis :=
  { total_issues := 1, resolved_issues := 0, pending_issues := 0,
    no_response_issues := 0, resolution_rate := 0, response_rate := 0 }

/-- Witness for `C7_rate_bounds`: the empty set yields the marker, and on a
concrete one-Issue list the bounds hold for the concrete rates. -/
theorem C7_witness :
    calculate_kpis [] = none
    ∧ (0 ≤ kpisExample.resolution_rate ∧ kpisExample.resolution_rate ≤ 100
        ∧ 0 ≤ kpisExample.response_rate ∧ kpisExample.response_rate ≤ 100) :=
  ⟨(C7_rate_bounds []).1 rfl,
   (C7_rate_bounds [mkIssue 1 (custMsg 0 MsgType.issue_report)]).2 kpisExample
     (by
       simp only [calculate_kpis, kpisExample]
       norm_num [mkIssue, tdTruthy, List.filter]
       decide)⟩

/-- C9: the intent classifier is total and role-gated — a customer body can
only be classified `issue_report`/`follow_up`/`general`, a support body only
`resolution`/`acknowledgment`/`request_info`/`response`, an unknown-role body
is always `other`; and when no keyword group matches (and, for customers, no
ticket reference is present, which the source also treats as an issue
trigger) the fallbacks `general` (customer) and `response` (support) are
returned. -/
theorem C9_classifier_role_gated (c : String) (ht : Bool) :
    classify_message_type SenderType.customer c ht ∈
      [MsgType.issue_report, MsgType.follow_up, MsgType.general]
    ∧ classify_message_type SenderType.support c ht ∈
      [MsgType.resolution, MsgType.acknowledgment, MsgType.request_info, MsgType.response]
    ∧ classify_message_type SenderType.unknown c ht = MsgType.other
    ∧ (kwIssueIndicators.any (fun kw => strContains (strLower c) kw) = false → ht = false →
        containsKeywords c kwFollowUp = false →
        classify_message_type SenderType.customer c ht = MsgType.general)
    ∧ (kwResolutionIndicators.any (fun kw => strContains (strLower c) kw) = false →
        containsKeywords c kwAcknowledgment = false →
        containsKeywords c kwRequestAction = false →
        classify_message_type SenderType.support c ht = MsgType.response) := by
  refine ⟨?_, ?_, rfl, ?_, ?_⟩
  · unfold classify_message_type
    dsimp only
    split
    · simp
    · split
      · simp
      · split <;> simp
  · unfold classify_message_type
    dsimp only
    split
    · simp
    · split
      · simp
      · split <;> simp
  · intro h1 h2 h3
    simp [classify_message_type, h1, h2, h3]
  · intro h1 h2 h3
    simp [classify_message_type, h1, h2, h3]

/-- Witness for `C9_classifier_role_gated` on the empty body without ticket
reference: the customer fallback is `general`, the support fallback is
`response`. -/
theorem C9_witness :
    classify_message_type SenderType.customer "" false = MsgType.general
    ∧ classify_message_type SenderType.support "" false = MsgType.response :=
  ⟨(C9_classifier_role_gated "" false).2.2.2.1 (by decide) rfl (by decide),
   (C9_classifier_role_gated "" false).2.2.2.2 (by decide) (by decide) (by decide)⟩

/-- Left-context condition for a match preceded by `pre`: the character just
before the match is non-word, where an empty `pre` defers to the boundary
condition for the character preceding the scanned text. -/
def PrevFits (prev : Option Char) (pre : List Char) : Prop :=
  match pre.getLast? with
  | some c => isWordChar c = false
  | none => prevOk prev = true

theorem prevFits_cons (prev : Option Char) (c : Char) (pre : List Char) :
    PrevFits (some c) pre ↔ PrevFits prev (c :: pre) := by
  cases pre with
  | nil =>
    show prevOk (some c) = true ↔ isWordChar c = false
    simp [prevOk]
  | cons d ds =>
    unfold PrevFits
    rw [List.getLast?_cons_cons]
    cases h : (d :: ds).getLast? with
    | none => exact absurd h (by simp)
    | some x => exact Iff.rfl

/-- The scanner finds exactly the length-7 all-digit windows whose left
context (through `prev` at the start of the text) and right context are
non-word. -/
theorem mem_scanTickets (s : List Char) : ∀ (prev : Option Char) (r : List Char),
    r ∈ scanTickets prev s ↔
      ∃ pre post, s = pre ++ r ++ post ∧ r.length = 7
        ∧ r.all isDigitChar = true ∧ PrevFits prev pre ∧ nextOk post = true := by
  induction s with
  | nil =>
    intro prev r
    constructor
    · intro h
      simp [scanTickets] at h
    · rintro ⟨pre, post, hs, h7, -, -, -⟩
      have : pre = [] ∧ r = [] ∧ post = [] := by
        have h1 := List.append_eq_nil.mp (List.append_assoc pre r post ▸ hs.symm)
        have h2 := List.append_eq_nil.mp h1.2
        exact ⟨h1.1, h2.1, h2.2⟩
      rw [this.2.1] at h7
      cases h7
  | cons c cs ih =>
    intro prev r
    rw [scanTickets]
    constructor
    · intro h
      by_cases hcond : (prevOk prev && ((c :: cs).take 7).length == 7
          && ((c :: cs).take 7).all isDigitChar && nextOk ((c :: cs).drop 7)) = true
      · rw [if_pos hcond] at h
        simp only [Bool.and_eq_true, beq_iff_eq] at hcond
        rcases List.mem_cons.mp h with rfl | hmem
        · refine ⟨[], (c :: cs).drop 7, ?_, hcond.1.1.2, hcond.1.2, hcond.1.1.1, hcond.2⟩
          rw [List.nil_append, List.take_append_drop]
        · obtain ⟨pre, post, hs, h7, hd, hpf, hnx⟩ := (ih (some c) r).mp hmem
          exact ⟨c :: pre, post, by simp [hs], h7, hd,
            (prevFits_cons prev c pre).mp hpf, hnx⟩
      · rw [if_neg hcond] at h
        obtain ⟨pre, post, hs, h7, hd, hpf, hnx⟩ := (ih (some c) r).mp h
        exact ⟨c :: pre, post, by simp [hs], h7, hd,
          (prevFits_cons prev c pre).mp hpf, hnx⟩
    · rintro ⟨pre, post, hs, h7, hd, hpf, hnx⟩
      cases pre with
      | nil =>
        rw [List.nil_append] at hs
        have ht : (c :: cs).take 7 = r := by
          rw [hs]
          exact List.take_left' h7
        have hdrop : (c :: cs).drop 7 = post := by
          rw [hs]
          exact List.drop_left' h7
        have hP : prevOk prev = true := hpf
        have hcond : (prevOk prev && ((c :: cs).take 7).length == 7
            && ((c :: cs).take 7).all isDigitChar && nextOk ((c :: cs).drop 7)) = true := by
          rw [ht, hdrop]
          simp [hP, h7, hd, hnx]
        rw [if_pos hcond, ht]
        exact List.mem_cons_self r _
      | cons d pre' =>
        have hs' : c = d ∧ cs = pre' ++ r ++ post := by
          rw [List.cons_append, List.cons_append] at hs
          exact ⟨(List.cons.injEq _ _ _ _ ▸ hs).1 , (List.cons.injEq _ _ _ _ ▸ hs).2⟩
        obtain ⟨rfl, hcs⟩ := hs'
        have hmem : r ∈ scanTickets (some c) cs :=
          (ih (some c) r).mpr ⟨pre', post, hcs, h7, hd,
            (prevFits_cons prev c pre').mpr hpf, hnx⟩
        by_cases hcond : (prevOk prev && ((c :: cs).take 7).length == 7
            && ((c :: cs).take 7).all isDigitChar && nextOk ((c :: cs).drop 7)) = true
        · rw [if_pos hcond]
          exact List.mem_cons_of_mem _ hmem
        · rw [if_neg hcond]
          exact hmem

set_option maxRecDepth 8192 in
/-- C8 counterexample: the body `"a1234567"` contains a 7-digit run whose
only neighbour is a letter (a non-digit), which the claim says is recognized;
`re.findall(r'\b\d{7}\b', ...)` extracts nothing from it, because `\b` is a
word boundary and a letter is a word character.  A run bounded by spaces is
extracted, so the scanner is not trivially empty.  The Arabic probes pin the
Unicode class semantics: an Arabic letter before the run also blocks the
boundary (it is a word character), and a run of Arabic-Indic digits (category
Nd) bounded by spaces is a match. -/
theorem C8_counterexample :
    findTicketIds "a1234567".toList = []
    ∧ findTicketIds " 1234567 ".toList = ["1234567".toList]
    ∧ findTicketIds "م1234567".toList = []
    ∧ findTicketIds " ١٢٣٤٥٦٧ ".toList = ["١٢٣٤٥٦٧".toList] := ⟨rfl, rfl, rfl, rfl⟩

/-- C8 (amended): the extracted ticket references are exactly the runs of
exactly 7 consecutive decimal digits (Unicode category Nd, so Arabic-Indic
digits count) bounded on both sides by non-word characters or by the string
ends, a word character being an underscore or any Unicode alphanumeric
character — a letter of any script, a decimal digit, or another
digit-like/numeric character; in particular a 7-digit run immediately
preceded or followed by a letter (Latin or Arabic), a digit or an underscore
is not recognized. -/
theorem C8_tickets_word_bounded (s r : List Char) :
    r ∈ findTicketIds s ↔
      ∃ pre post, s = pre ++ r ++ post ∧ r.length = 7
        ∧ (∀ c ∈ r, isDigitChar c = true)
        ∧ (∀ c, pre.getLast? = some c → isWordChar c = false)
        ∧ (∀ c, post.head? = some c → isWordChar c = false) := by
  rw [findTicketIds, mem_scanTickets]
  constructor
  · rintro ⟨pre, post, hs, h7, hd, hpf, hnx⟩
    refine ⟨pre, post, hs, h7, ?_, ?_, ?_⟩
    · intro x hx
      exact List.all_eq_true.mp hd x hx
    · intro x hx
      unfold PrevFits at hpf
      rw [hx] at hpf
      exact hpf
    · intro x hx
      cases post with
      | nil => simp at hx
      | cons p ps =>
        rw [List.head?_cons, Option.some.injEq] at hx
        subst hx
        have hb : (!isWordChar p) = true := hnx
        simpa using hb
  · rintro ⟨pre, post, hs, h7, hd, hpl, hph⟩
    refine ⟨pre, post, hs, h7, List.all_eq_true.mpr hd, ?_, ?_⟩
    · unfold PrevFits
      cases hp : pre.getLast? with
      | none => rfl
      | some x => exact hpl x hp
    · cases post with
      | nil => rfl
      | cons p ps =>
        show (!isWordChar p) = true
        rw [hph p rfl]
        rfl

set_option maxRecDepth 8192 in
/-- Witness for `C8_tickets_word_bounded`: a space-separated 7-digit run is
recognized via the right-to-left direction at a concrete decomposition. -/
theorem C8_witness :
    "1234567".toList ∈ findTicketIds "x 1234567".toList :=
  (C8_tickets_word_bounded "x 1234567".toList "1234567".toList).mpr
    ⟨"x ".toList, [], by decide, by decide, by decide, by decide, by decide⟩

/-- Witness for `C1_continuation_appends`: a support `response` 60 seconds
after the opening customer report is appended to the single open Issue. -/
theorem C1_witness :
    (step [mkIssue 1 (custMsg 0 MsgType.issue_report)] (suppMsg 60 MsgType.response)).length = 1
    ∧ (step [mkIssue 1 (custMsg 0 MsgType.issue_report)] (suppMsg 60 MsgType.response)).getLast?
      = some (appendMsg (suppMsg 60 MsgType.response)
          (mkIssue 1 (custMsg 0 MsgType.issue_report))) :=
  ⟨(C1_continuation_appends [mkIssue 1 (custMsg 0 MsgType.issue_report)]
      (mkIssue 1 (custMsg 0 MsgType.issue_report)) (suppMsg 60 MsgType.response)
      rfl rfl (by decide) rfl).1,
   (C1_continuation_appends [mkIssue 1 (custMsg 0 MsgType.issue_report)]
      (mkIssue 1 (custMsg 0 MsgType.issue_report)) (suppMsg 60 MsgType.response)
      rfl rfl (by decide) rfl).2.1⟩
